import Mathlib

/-!
Verification development for the billing and credit-reconciliation core of a
resume-builder SaaS backend.

The embedding models:
* `src/services/credit.service.js` - the credit ledger (checkCredits,
  deductCredits) over the user balance and the credit log;
* `src/models/creditLog.model.js` - ledger entry shape and its type enum;
* the subscription model (subscriptionSchema: getActiveForUser,
  isUserSubscribed, isActive);
* the transaction model (transactionSchema and its type enum);
* the Stripe payment service (handleCheckoutCompleted,
  handleSubscriptionUpdated, handleSubscriptionDeleted,
  handleInvoicePaymentSucceeded, handlePaymentFailed,
  createSubscriptionCheckoutSession, verifyAndProcessSession,
  syncSubscriptionFromStripe);
* the registration path of the user controller (initial credit grant).

Mongo documents become Lean structures; collections become lists; the atomic
findByIdAndUpdate / findOneAndUpdate operations become list transformers;
thrown exceptions become explicit error results carrying the state persisted
so far (JavaScript awaits each write before the next, so writes made before a
throw persist).
-/

namespace TekvionBilling

/-- Ledger entry kinds, from the creditLog.model.js enum
`['usage','addition','initial','admin_adjustment','purchase','refund']`. -/
inductive LogType where
  | usage
  | addition
  | initial
  | admin_adjustment
  | purchase
  | refund
deriving DecidableEq, Repr

/-- One credit-log document (creditLog.model.js).  `credits` is the always
non-negative magnitude; `logType` encodes the direction.  `balanceAfter` is
the stored balance snapshot, `none` modelling a null snapshot. -/
structure CreditLogEntry where
  userId : String
  logType : LogType
  action : Option String
  credits : Nat
  balanceAfter : Option Int
  description : String
deriving DecidableEq, Repr

/-- Signed delta contributed by a ledger entry: usage entries count negative,
all addition-typed kinds count positive (the schema comment: credits is
always positive, type determines direction). -/
def signedDelta (e : CreditLogEntry) : Int :=
  match e.logType with
  | .usage => -(e.credits : Int)
  | _ => (e.credits : Int)

/-- Running signed sum of a ledger (oldest entry first). -/
def signedSum (l : List CreditLogEntry) : Int :=
  (l.map signedDelta).sum

/-- Boolean check that every entry in the ledger (oldest first) carries a
balance snapshot equal to the running signed sum at the moment it was
written, the sum being accumulated from `acc`. -/
def snapshotsOkFrom : Int → List CreditLogEntry → Bool
  | _, [] => true
  | acc, e :: rest =>
      (e.balanceAfter == some (acc + signedDelta e)) &&
        snapshotsOkFrom (acc + signedDelta e) rest

/-- Every entry snapshot equals the ledger-derived running sum from zero. -/
def snapshotsOk (l : List CreditLogEntry) : Bool :=
  snapshotsOkFrom 0 l

/-- The slice of the user document the credit service touches: the balance
(select +credits), the role, and - for stating the ledger invariant - that
user's credit-log documents, oldest first. -/
structure CUser where
  credits : Int
  role : String
  ledger : List CreditLogEntry
deriving DecidableEq, Repr

/-- actionLabels from credit.service.js. -/
def actionLabels : List (String × String) :=
  [("resume_creation", "Resume Generation"),
   ("job_post_cover_letter", "Job Post Cover Letter"),
   ("upwork_estimate", "Upwork Estimate"),
   ("upwork_proposal", "Upwork Proposal"),
   ("fiverr_estimate", "Fiverr Estimate"),
   ("fiverr_proposal", "Fiverr Proposal")]

/-- costMap from credit.service.js: action key to AppSettings cost key. -/
def costMap : List (String × String) :=
  [("resume_creation", "credits_per_resume"),
   ("job_post_cover_letter", "credits_per_job_post_cover_letter"),
   ("upwork_estimate", "credits_per_upwork_estimate"),
   ("upwork_proposal", "credits_per_upwork_proposal"),
   ("fiverr_estimate", "credits_per_fiverr_estimate"),
   ("fiverr_proposal", "credits_per_fiverr_proposal")]

/-- Association-list lookup (Mongo findOne by key). -/
def lookup (m : List (String × String)) (k : String) : Option String :=
  (m.find? (fun p => p.fst == k)).map (·.snd)

/-- AppSettings.get key default: the stored value when present, the default
otherwise.  The settings store is passed in as a map from key to stored
numeric value. -/
def settingsGet (getSetting : String → Option Nat) (key : String) (dflt : Nat) : Nat :=
  (getSetting key).getD dflt

/-- Result shape of checkCredits.  `available = none` models the
JavaScript Infinity returned for admins; `unlimited` mirrors the optional
flag on the admin fast path. -/
structure CheckResult where
  hasCredits : Bool
  required : Nat
  available : Option Int
  unlimited : Bool
deriving DecidableEq, Repr

/-- checkCredits (credit.service.js lines 38-57).  The admin fast path
precedes the cost-map validation; unknown actions throw for non-admins. -/
def checkCredits (getSetting : String → Option Nat) (u : CUser) (action : String) :
    Except String CheckResult :=
  if u.role = "admin" then
    .ok { hasCredits := true, required := 0, available := none, unlimited := true }
  else
    match lookup costMap action with
    | none => .error ("Unknown credit action: " ++ action)
    | some settingKey =>
        let required := settingsGet getSetting settingKey 1
        .ok { hasCredits := decide ((required : Int) ≤ u.credits),
              required := required,
              available := some u.credits,
              unlimited := false }

/-- Result shape of deductCredits.  `remaining = none` models Infinity on
the admin path; `required` and `error` are only populated on the
insufficient-credits descriptor, mirroring the source object literals. -/
structure DeductResult where
  success : Bool
  creditsDeducted : Nat
  remaining : Option Int
  required : Option Nat
  error : Option String
  unlimited : Bool
deriving DecidableEq, Repr

/-- deductCredits (credit.service.js lines 67-129), sequential semantics.
Admin path: no balance change, a usage log entry with magnitude 0 and null
snapshot.  Insufficient path: no mutation, failure descriptor with required
and available.  Success path: findByIdAndUpdate with an unconditional
dollar-inc of minus required (the filter is the user id alone), then a usage
log entry whose snapshot is the post-decrement balance. -/
def deductCredits (getSetting : String → Option Nat) (uid : String) (u : CUser)
    (action : String) : Except String (DeductResult × CUser) :=
  match checkCredits getSetting u action with
  | .error e => .error e
  | .ok creditCheck =>
  let label := (lookup actionLabels action).getD action
  if creditCheck.unlimited then
    let entry : CreditLogEntry :=
      { userId := uid, logType := .usage, action := some action, credits := 0,
        balanceAfter := none, description := label }
    .ok ({ success := true, creditsDeducted := 0, remaining := none,
           required := none, error := none, unlimited := true },
         { u with ledger := u.ledger ++ [entry] })
  else if !creditCheck.hasCredits then
    .ok ({ success := false, creditsDeducted := 0,
           remaining := creditCheck.available,
           required := some creditCheck.required,
           error := some ("Insufficient credits. Required: " ++
             toString creditCheck.required ++ ", Available: " ++
             toString (creditCheck.available.getD 0)),
           unlimited := false }, u)
  else
    let required := creditCheck.required
    let newCredits := u.credits - (required : Int)
    let entry : CreditLogEntry :=
      { userId := uid, logType := .usage, action := some action,
        credits := required, balanceAfter := some newCredits,
        description := label }
    .ok ({ success := true, creditsDeducted := required,
           remaining := some newCredits, required := none, error := none,
           unlimited := false },
         { u with credits := newCredits, ledger := u.ledger ++ [entry] })

/-- Registration (user controller): User.create with credits set to the
configured initial amount, followed by an `initial` credit-log entry whose
snapshot is that amount, written only when the amount is positive. -/
def registerUser (uid : String) (role : String) (initialCredits : Nat) : CUser :=
  { credits := initialCredits,
    role := role,
    ledger :=
      if 0 < initialCredits then
        [{ userId := uid, logType := .initial, action := none,
           credits := initialCredits, balanceAfter := some (initialCredits : Int),
           description := "Welcome bonus - " ++ toString initialCredits ++ " free credits" }]
      else [] }

/-- The ledger operations the spec quantifies over, after account creation:
a usage debit (deductCredits), a purchase credit (the credit-purchase branch
of handleCheckoutCompleted restricted to its effect on balance and credit
log), and a subscription credit (the dollar-inc plus `addition` log entry
shared by the subscription-checkout branch and the invoice handler). -/
inductive LedgerOp where
  | debit (action : String)
  | purchaseCredit (amount : Nat)
  | subscriptionCredit (amount : Nat)
deriving DecidableEq, Repr

/-- Apply one ledger operation to the user slice.  A debit that throws
(unknown action) leaves the state unchanged - the exception propagates
before any write.  The purchase and subscription credits mirror the payment
service: findByIdAndUpdate with dollar-inc, then a log entry whose snapshot
is the post-increment balance. -/
def applyOp (getSetting : String → Option Nat) (uid : String) (u : CUser) :
    LedgerOp → CUser
  | .debit action =>
      match deductCredits getSetting uid u action with
      | .ok (_, u') => u'
      | .error _ => u
  | .purchaseCredit amount =>
      let newCredits := u.credits + (amount : Int)
      { u with credits := newCredits,
               ledger := u.ledger ++
                 [{ userId := uid, logType := .purchase, action := none,
                    credits := amount, balanceAfter := some newCredits,
                    description := "Purchased " ++ toString amount ++ " credits" }] }
  | .subscriptionCredit amount =>
      let newCredits := u.credits + (amount : Int)
      { u with credits := newCredits,
               ledger := u.ledger ++
                 [{ userId := uid, logType := .addition, action := none,
                    credits := amount, balanceAfter := some newCredits,
                    description := "Subscription credits - " ++ toString amount ++ " added" }] }

/-- Run a sequence of ledger operations against a freshly registered user. -/
def runOps (getSetting : String → Option Nat) (uid : String) (role : String)
    (initialCredits : Nat) (ops : List LedgerOp) : CUser :=
  ops.foldl (applyOp getSetting uid) (registerUser uid role initialCredits)

/-- Subscription plans (subscriptionSchema plan enum). -/
inductive Plan where
  | monthly
  | yearly
deriving DecidableEq, Repr

/-- Subscription statuses (subscriptionSchema status enum). -/
inductive SubStatus where
  | active
  | canceled
  | past_due
  | trialing
  | incomplete
  | expired
deriving DecidableEq, Repr

/-- One local subscription document (subscription model).  Dates are unix
timestamps; `none` models an unset field. -/
structure SubRecord where
  userId : String
  stripeCustomerId : Option String
  stripeSubscriptionId : Option String
  plan : Plan
  status : SubStatus
  currentPeriodStart : Option Nat
  currentPeriodEnd : Option Nat
  cancelAtPeriodEnd : Bool
  publicResumes : Bool
  resumeAnalytics : Bool
  salaryEstimation : Bool
deriving DecidableEq, Repr

/-- Transaction statuses (transactionSchema status enum). -/
inductive TxStatus where
  | pending
  | completed
  | failed
  | refunded
deriving DecidableEq, Repr

/-- The transactionSchema type enum, verbatim from the source:
`['credit_purchase','credit_usage','subscription_payment','subscription_renewal','refund']`. -/
def transactionTypeEnum : List String :=
  ["credit_purchase", "credit_usage", "subscription_payment",
   "subscription_renewal", "refund"]

/-- One transaction-journal document (transaction model).  The type is kept
as the raw string the handlers pass to Transaction.create, because the
schema validates it against `transactionTypeEnum` at write time.  Monetary
amounts are in cents (the source divides Stripe cent amounts by 100 for
storage; working in cents keeps the arithmetic exact and preserves every
comparison the handlers make).  Of the free-form metadata blob, the two
keys the transaction-sync dedup queries match on (metadata.chargeId and
metadata.paymentIntentId, written only by the sync imports) are modelled;
the rest of the blob is never read back. -/
structure Transaction where
  userId : String
  stripeSessionId : Option String
  stripePaymentIntentId : Option String
  stripeSubscriptionId : Option String
  stripeInvoiceId : Option String
  txType : String
  status : TxStatus
  amountCents : Int
  currency : String
  creditsAdded : Nat
  plan : Option Plan
  description : String
  stripeEventType : String
  metaChargeId : Option String := none
  metaPaymentIntentId : Option String := none
deriving DecidableEq, Repr

/-- Mongoose validation of Transaction.create: the document is inserted only
when its type is in the schema enum; otherwise the write throws a
ValidationError and nothing is inserted. -/
def createTransaction (tx : Transaction) (txs : List Transaction) :
    Except String (List Transaction) :=
  if transactionTypeEnum.contains tx.txType then
    .ok (txs ++ [tx])
  else
    .error ("Transaction validation failed: `" ++ tx.txType ++
      "` is not a valid enum value for path `type`.")

/-- The slice of a user document the payment service touches. -/
structure UserRec where
  id : String
  email : String
  credits : Int
deriving DecidableEq, Repr

/-- The local data-store state the billing core reads and writes: user
balances, credit-log entries, subscription records and the transaction
journal (each collection as an insertion-ordered list). -/
structure PayState where
  users : List UserRec
  logs : List CreditLogEntry
  subs : List SubRecord
  txs : List Transaction
deriving DecidableEq, Repr

/-- Result of an async handler: normal return, or a thrown error together
with the state persisted before the throw (each await completes its write
before the next statement runs, so writes made before a throw stay). -/
inductive HResult where
  | ok (st : PayState)
  | err (msg : String) (st : PayState)
deriving DecidableEq, Repr

/-- User.findByIdAndUpdate with a dollar-inc on credits: update the matching
user in place (no-op when the id is absent). -/
def incCreditsList : List UserRec → String → Int → List UserRec
  | [], _, _ => []
  | u :: rest, uid, amt =>
      if u.id = uid then { u with credits := u.credits + amt } :: rest
      else u :: incCreditsList rest uid amt

/-- The credits field of the updated document (option new true): `none`
models the null document returned when no user matches. -/
def findCredits (users : List UserRec) (uid : String) : Option Int :=
  (users.find? (fun u => u.id == uid)).map (·.credits)

/-- Combined findByIdAndUpdate dollar-inc returning the updated list and the
post-update balance of the matched user. -/
def incCredits (users : List UserRec) (uid : String) (amt : Int) :
    List UserRec × Option Int :=
  let users' := incCreditsList users uid amt
  (users', findCredits users' uid)

/-- A Stripe subscription object as the handlers consume it: status, the
billing-period bounds already extracted from the item (unix seconds, none
when missing), the cancel flag, and the price recurring interval. -/
structure StripeSub where
  id : String
  status : SubStatus
  periodStart : Option Nat
  periodEnd : Option Nat
  cancelAtPeriodEnd : Bool
  interval : Option String
deriving DecidableEq, Repr

/-- extractPeriodDates: the item or top-level period bounds, falling back to
the current time when absent. -/
def extractPeriodDates (now : Nat) (s : StripeSub) : Nat × Nat :=
  (s.periodStart.getD now, s.periodEnd.getD now)

/-- creditLimitForPlan: plan allotment from AppSettings with the source
defaults (yearly 700, monthly 50). -/
def creditLimitForPlan (getSetting : String → Option Nat) (plan : Plan) : Nat :=
  match plan with
  | .yearly => settingsGet getSetting "subscription_yearly_credits" 700
  | .monthly => settingsGet getSetting "subscription_monthly_credits" 50

/-- Plan inferred from a Stripe price recurring interval (year gives yearly,
anything else monthly). -/
def planOfInterval (interval : String) : Plan :=
  if interval = "year" then .yearly else .monthly

/-- Subscription.findOneAndUpdate keyed by (userId, stripeSubscriptionId)
with upsert: replace the fields of the matching record, or append a new
record when none matches.  `mk` builds the full field set the two upsert
call sites write. -/
def upsertSub (subs : List SubRecord) (uid : String) (sid : String)
    (mk : SubRecord) : List SubRecord :=
  if subs.any (fun r => r.userId == uid && r.stripeSubscriptionId == some sid) then
    subs.map (fun r =>
      if r.userId == uid && r.stripeSubscriptionId == some sid then mk else r)
  else
    subs ++ [mk]

/-- The field set written by the subscription upserts (checkout completion,
checkout-conflict sync and subscription sync all write the same shape, with
all three feature flags set to true). -/
def mkSubRecord (uid : String) (customerId : Option String) (sid : String)
    (plan : Plan) (status : SubStatus) (ps pe : Nat) (cape : Bool) : SubRecord :=
  { userId := uid, stripeCustomerId := customerId,
    stripeSubscriptionId := some sid, plan := plan, status := status,
    currentPeriodStart := some ps, currentPeriodEnd := some pe,
    cancelAtPeriodEnd := cape,
    publicResumes := true, resumeAnalytics := true, salaryEstimation := true }

/-- Subscription.findOne by a predicate followed by save: update the first
matching record in place. -/
def updateFirstWhere : List SubRecord → (SubRecord → Bool) → (SubRecord → SubRecord) → List SubRecord
  | [], _, _ => []
  | r :: rest, p, f => if p r then f r :: rest else r :: updateFirstWhere rest p f

/-- Subscription.findOne by stripeSubscriptionId, updating the first match
in place (findOne returns one document; save writes it back). -/
def updateFirstSub (subs : List SubRecord) (sid : String)
    (f : SubRecord → SubRecord) : List SubRecord :=
  updateFirstWhere subs (fun r => r.stripeSubscriptionId == some sid) f

/-- A checkout session as the webhook handler consumes it: its metadata
(type, userId, creditAmount already parsed, plan), payment fields and the
attached subscription id. -/
structure Session where
  id : String
  metaType : String
  userId : String
  creditAmount : Nat
  plan : Plan
  amountTotalCents : Int
  currency : String
  paymentStatus : String
  subscriptionId : Option String
  paymentIntent : Option String
  customer : String
deriving DecidableEq, Repr

/-- An invoice payload as handleInvoicePaymentSucceeded consumes it. -/
structure Invoice where
  id : String
  subscription : Option String
  billingReason : String
  amountPaidCents : Int
  amountDueCents : Int
  currency : String
  paymentIntent : Option String
deriving DecidableEq, Repr

/-- A Stripe charge as the transaction sync consumes it: status, payment
intent and invoice references, amount, and the creditAmount metadata key
(already parsed). -/
structure Charge where
  id : String
  paymentIntent : Option String
  status : String
  amountCents : Int
  currency : String
  invoice : Option String
  metaCreditAmount : Option Nat
deriving DecidableEq, Repr

/-- A Stripe payment intent as the transaction sync consumes it. -/
structure PaymentIntent where
  id : String
  status : String
  amountCents : Int
  currency : String
  invoice : Option String
  metaType : Option String
  metaCreditAmount : Option Nat
deriving DecidableEq, Repr

/-- The external Stripe API surface the modelled handlers call, passed in as
an oracle: subscription, session and invoice retrieval (none models a
throwing call), the active and trialing subscription listings per customer,
the charge and payment-intent listings per customer (none models a throwing
call), customer lookup by email, the id of a freshly created customer, and
whether checkout-session creation and subscription updates on the Stripe
side succeed. -/
structure StripeOracle where
  retrieveSub : String → Option StripeSub
  retrieveSession : String → Option Session
  retrieveInvoice : String → Option Invoice
  activeSubs : String → List StripeSub
  trialingSubs : String → List StripeSub
  chargesList : String → Option (List Charge)
  paymentIntentsList : String → Option (List PaymentIntent)
  customerByEmail : String → Option String
  newCustomerId : String
  sessionCreateOk : Bool
  updateSubOk : Bool
  updateSubResult : String → Option StripeSub

/-- handleCheckoutCompleted (payment service).  Credit-purchase branch:
dollar-inc the balance by the purchased amount, insert a completed
transaction keyed by the session id, insert a `purchase` log entry whose
snapshot is the post-increment balance.  Subscription branch: retrieve the
Stripe subscription, upsert the local record, dollar-inc by the plan
allotment, insert an `addition` log entry, insert a completed
subscription_payment transaction.  Neither branch checks for an existing
transaction with the same session id.  Any other metadata type falls
through with no effect. -/
def handleCheckoutCompleted (o : StripeOracle) (getSetting : String → Option Nat)
    (now : Nat) (s : Session) (st : PayState) : HResult :=
  if s.metaType = "credit_purchase" then
    let credits := s.creditAmount
    let (users', after) := incCredits st.users s.userId (credits : Int)
    let tx : Transaction :=
      { userId := s.userId, stripeSessionId := some s.id,
        stripePaymentIntentId := s.paymentIntent, stripeSubscriptionId := none,
        stripeInvoiceId := none, txType := "credit_purchase",
        status := .completed, amountCents := s.amountTotalCents,
        currency := s.currency, creditsAdded := credits, plan := none,
        description := "Purchased " ++ toString credits ++ " resume credits",
        stripeEventType := "checkout.session.completed" }
    match createTransaction tx st.txs with
    | .error e => .err e { st with users := users' }
    | .ok txs' =>
        let logs' := st.logs ++
          [{ userId := s.userId, logType := .purchase, action := none,
             credits := credits, balanceAfter := after,
             description := "Purchased " ++ toString credits ++ " credits" }]
        .ok { st with users := users', txs := txs', logs := logs' }
  else if s.metaType = "subscription" then
    match s.subscriptionId with
    | none => .err "stripe subscription retrieve failed" st
    | some sid =>
      match o.retrieveSub sid with
      | none => .err "stripe subscription retrieve failed" st
      | some stripeSub =>
        let (ps, pe) := extractPeriodDates now stripeSub
        let subs' := upsertSub st.subs s.userId sid
          (mkSubRecord s.userId (some s.customer) sid s.plan stripeSub.status
            ps pe stripeSub.cancelAtPeriodEnd)
        let creditsToAdd := creditLimitForPlan getSetting s.plan
        let (users', after) := incCredits st.users s.userId (creditsToAdd : Int)
        let logs' := st.logs ++
          [{ userId := s.userId, logType := .addition, action := none,
             credits := creditsToAdd, balanceAfter := after,
             description := "Subscription activated - " ++
               toString creditsToAdd ++ " credits added" }]
        let tx : Transaction :=
          { userId := s.userId, stripeSessionId := some s.id,
            stripePaymentIntentId := s.paymentIntent,
            stripeSubscriptionId := some sid, stripeInvoiceId := none,
            txType := "subscription_payment", status := .completed,
            amountCents := s.amountTotalCents, currency := s.currency,
            creditsAdded := creditsToAdd, plan := some s.plan,
            description := "Subscription activated",
            stripeEventType := "checkout.session.completed" }
        match createTransaction tx st.txs with
        | .error e =>
            .err e { st with subs := subs', users := users', logs := logs' }
        | .ok txs' =>
            .ok { st with subs := subs', users := users', logs := logs', txs := txs' }
  else
    .ok st

/-- handleSubscriptionUpdated: find the local record by Stripe subscription
id (warn and return when absent) and mirror status, period bounds, cancel
flag and - when the event carries a price interval - the plan. -/
def handleSubscriptionUpdated (now : Nat) (ev : StripeSub) (st : PayState) : HResult :=
  if st.subs.any (fun r => r.stripeSubscriptionId == some ev.id) then
    let (ps, pe) := extractPeriodDates now ev
    let subs' := updateFirstSub st.subs ev.id (fun r =>
      { r with status := ev.status,
               currentPeriodStart := some ps,
               currentPeriodEnd := some pe,
               cancelAtPeriodEnd := ev.cancelAtPeriodEnd,
               plan := match ev.interval with
                       | some i => planOfInterval i
                       | none => r.plan })
    .ok { st with subs := subs' }
  else
    .ok st

/-- handleSubscriptionDeleted: mark the matching local record expired (the
resume-privatization side effect touches the resume collection, outside the
billing state modelled here). -/
def handleSubscriptionDeleted (ev : StripeSub) (st : PayState) : HResult :=
  if st.subs.any (fun r => r.stripeSubscriptionId == some ev.id) then
    let subs' := updateFirstSub st.subs ev.id (fun r => { r with status := .expired })
    .ok { st with subs := subs' }
  else
    .ok st

/-- handleInvoicePaymentSucceeded (payment service lines 543-610).  Skips
non-subscription invoices, initial-subscription invoices, zero-paid
invoices, invoices whose subscription has no local record, and invoices for
which a transaction already exists.  Otherwise: dollar-inc by the plan
allotment, insert an `addition` log entry, then insert a transaction typed
subscription_switch for subscription_update billing reasons and
subscription_renewal otherwise - validated against the schema type enum. -/
def handleInvoicePaymentSucceeded (getSetting : String → Option Nat)
    (inv : Invoice) (st : PayState) : HResult :=
  match inv.subscription with
  | none => .ok st
  | some subId =>
    if inv.billingReason = "subscription_create" then .ok st
    else if inv.amountPaidCents ≤ 0 then .ok st
    else
      match st.subs.find? (fun r => r.stripeSubscriptionId == some subId) with
      | none => .ok st
      | some sub =>
        if st.txs.any (fun t => t.stripeInvoiceId == some inv.id) then .ok st
        else
          let isSwitch := inv.billingReason = "subscription_update"
          let creditsToAdd := creditLimitForPlan getSetting sub.plan
          let (users', after) := incCredits st.users sub.userId (creditsToAdd : Int)
          let logs' := st.logs ++
            [{ userId := sub.userId, logType := .addition, action := none,
               credits := creditsToAdd, balanceAfter := after,
               description := (if isSwitch then "Plan switch" else "Subscription renewal") ++
                 " - " ++ toString creditsToAdd ++ " credits added" }]
          let tx : Transaction :=
            { userId := sub.userId, stripeSessionId := none,
              stripePaymentIntentId := inv.paymentIntent,
              stripeSubscriptionId := some subId,
              stripeInvoiceId := some inv.id,
              txType := if isSwitch then "subscription_switch" else "subscription_renewal",
              status := .completed, amountCents := inv.amountPaidCents,
              currency := inv.currency, creditsAdded := creditsToAdd,
              plan := some sub.plan,
              description := if isSwitch then "Plan switch" else "Subscription renewal",
              stripeEventType := "invoice.payment_succeeded" }
          match createTransaction tx st.txs with
          | .error e => .err e { st with users := users', logs := logs' }
          | .ok txs' => .ok { st with users := users', logs := logs', txs := txs' }

/-- handlePaymentFailed: mark the matching subscription past_due and insert
a failed subscription_renewal transaction; nothing when no record matches. -/
def handlePaymentFailed (inv : Invoice) (st : PayState) : HResult :=
  match inv.subscription with
  | none => .ok st
  | some subId =>
    match st.subs.find? (fun r => r.stripeSubscriptionId == some subId) with
    | none => .ok st
    | some sub =>
      let subs' := updateFirstSub st.subs subId (fun r => { r with status := .past_due })
      let tx : Transaction :=
        { userId := sub.userId, stripeSessionId := none,
          stripePaymentIntentId := none, stripeSubscriptionId := some subId,
          stripeInvoiceId := some inv.id, txType := "subscription_renewal",
          status := .failed, amountCents := inv.amountDueCents,
          currency := inv.currency, creditsAdded := 0, plan := some sub.plan,
          description := "Subscription renewal payment failed",
          stripeEventType := "invoice.payment_failed" }
      match createTransaction tx st.txs with
      | .error e => .err e { st with subs := subs' }
      | .ok txs' => .ok { st with subs := subs', txs := txs' }

/-- The Stripe event categories the webhook dispatcher recognises, plus a
catch-all for every other event type. -/
inductive StripeEvent where
  | checkoutSessionCompleted (s : Session)
  | customerSubscriptionUpdated (sub : StripeSub)
  | customerSubscriptionDeleted (sub : StripeSub)
  | invoicePaymentSucceeded (inv : Invoice)
  | invoicePaymentFailed (inv : Invoice)
  | other (eventType : String)
deriving DecidableEq, Repr

/-- handleWebhookEvent: dispatch on the event type; unrecognised events are
logged and ignored. -/
def handleWebhookEvent (o : StripeOracle) (getSetting : String → Option Nat)
    (now : Nat) (ev : StripeEvent) (st : PayState) : HResult :=
  match ev with
  | .checkoutSessionCompleted s => handleCheckoutCompleted o getSetting now s st
  | .customerSubscriptionUpdated sub => handleSubscriptionUpdated now sub st
  | .customerSubscriptionDeleted sub => handleSubscriptionDeleted sub st
  | .invoicePaymentSucceeded inv => handleInvoicePaymentSucceeded getSetting inv st
  | .invoicePaymentFailed inv => handlePaymentFailed inv st
  | .other _ => .ok st

/-- The subscription-model query predicate behind getActiveForUser: same
user, status in [active, trialing], and a currentPeriodEnd strictly greater
than now (a missing period end never matches a strict greater-than filter). -/
def activeQueryMatch (uid : String) (now : Nat) (r : SubRecord) : Bool :=
  r.userId == uid &&
    (r.status == .active || r.status == .trialing) &&
    (match r.currentPeriodEnd with
     | some e => now < e
     | none => false)

/-- getActiveForUser: first record matching the active-subscription query. -/
def getActiveForUser (subs : List SubRecord) (uid : String) (now : Nat) :
    Option SubRecord :=
  subs.find? (activeQueryMatch uid now)

/-- isUserSubscribed: whether the active-subscription query finds a record. -/
def isUserSubscribed (subs : List SubRecord) (uid : String) (now : Nat) : Bool :=
  (getActiveForUser subs uid now).isSome

/-- Result of verifyAndProcessSession: the alreadyProcessed flag and the
resulting state, or a thrown error with the state persisted so far. -/
inductive VResult where
  | ok (alreadyProcessed : Bool) (st : PayState)
  | err (msg : String) (st : PayState)
deriving DecidableEq, Repr

/-- verifyAndProcessSession: return already-processed when a completed
transaction exists for the session id; otherwise fetch the session, require
it paid and owned by the requesting user, then run the same
checkout-completed logic as the webhook path. -/
def verifyAndProcessSession (o : StripeOracle) (getSetting : String → Option Nat)
    (now : Nat) (sessionId : String) (uid : String) (st : PayState) : VResult :=
  if st.txs.any (fun t => t.stripeSessionId == some sessionId && t.status == .completed) then
    .ok true st
  else
    match o.retrieveSession sessionId with
    | none => .err "Session not found on Stripe" st
    | some s =>
      if s.paymentStatus ≠ "paid" then
        .err ("Payment not completed. Status: " ++ s.paymentStatus) st
      else if s.userId ≠ uid then
        .err "Session does not belong to this user" st
      else
        match handleCheckoutCompleted o getSetting now s st with
        | .ok st' => .ok false st'
        | .err e st' => .err e st'

/-- getOrCreateCustomer: the customer id of an existing local subscription
record that carries one, else the id of a freshly created Stripe customer
(a remote-only action). -/
def getOrCreateCustomer (o : StripeOracle) (st : PayState) (uid : String) : String :=
  match st.subs.find? (fun r => r.userId == uid && r.stripeCustomerId.isSome) with
  | some r => r.stripeCustomerId.getD o.newCustomerId
  | none => o.newCustomerId

/-- The error message of the conflict branch that syncs before throwing. -/
def syncedConflictMsg : String :=
  "User already has an active subscription on Stripe. It has been synced - please refresh the page."

/-- createSubscriptionCheckoutSession (payment service lines 180-249).
Throws when the user already has a local active subscription; when Stripe
reports an active subscription missing locally it first upserts that
subscription into the local store and then throws; otherwise resolves the
configured price id (throwing when unset or empty) and creates the remote
checkout session.  Only the conflict branch writes locally.  The remote
request construction (line items, redirect URLs) shapes no local state and
is represented by the oracle success flag. -/
def createSubscriptionCheckoutSession (o : StripeOracle)
    (getSettingStr : String → Option String) (now : Nat) (uid : String)
    (plan : Plan) (st : PayState) : HResult :=
  match st.users.find? (fun u => u.id == uid) with
  | none => .err "User not found" st
  | some _ =>
    if (getActiveForUser st.subs uid now).isSome then
      .err "User already has an active subscription. Cancel it first to switch plans." st
    else
      let customerId := getOrCreateCustomer o st uid
      match o.activeSubs customerId with
      | stSub :: _ =>
          let (ps, pe) := extractPeriodDates now stSub
          let subs' := upsertSub st.subs uid stSub.id
            (mkSubRecord uid (some customerId) stSub.id plan stSub.status ps pe
              stSub.cancelAtPeriodEnd)
          .err syncedConflictMsg { st with subs := subs' }
      | [] =>
          let priceKey := match plan with
                          | .yearly => "stripe_yearly_price_id"
                          | .monthly => "stripe_monthly_price_id"
          match getSettingStr priceKey with
          | none => .err ("Stripe price ID not configured for the " ++ priceKey ++ " plan.") st
          | some priceId =>
            if priceId = "" then
              .err ("Stripe price ID not configured for the " ++ priceKey ++ " plan.") st
            else if o.sessionCreateOk then
              .ok st
            else
              .err "stripe checkout session creation failed" st

/-- createCreditCheckoutSession: finds the user, resolves the customer and
creates a remote checkout session; no local collection is written on any
path (the package price table only shapes the remote request). -/
def createCreditCheckoutSession (o : StripeOracle) (uid : String)
    (st : PayState) : HResult :=
  match st.users.find? (fun u => u.id == uid) with
  | none => .err "User not found" st
  | some _ =>
    if o.sessionCreateOk then .ok st
    else .err "stripe checkout session creation failed" st

/-- cancelSubscription: require an active subscription, schedule the
cancellation on Stripe, then mirror cancelAtPeriodEnd locally. -/
def cancelSubscription (o : StripeOracle) (now : Nat) (uid : String)
    (st : PayState) : HResult :=
  match getActiveForUser st.subs uid now with
  | none => .err "No active subscription found" st
  | some _ =>
    if o.updateSubOk then
      let subs' := updateFirstWhere st.subs (activeQueryMatch uid now)
        (fun r => { r with cancelAtPeriodEnd := true })
      .ok { st with subs := subs' }
    else
      .err "stripe subscription update failed" st

/-- reactivateSubscription: require an active record pending cancellation,
undo the scheduled cancellation on Stripe, then mirror the flag locally. -/
def reactivateSubscription (o : StripeOracle) (uid : String) (st : PayState) : HResult :=
  let pending := fun (r : SubRecord) =>
    r.userId == uid && r.status == .active && r.cancelAtPeriodEnd
  match st.subs.find? pending with
  | none => .err "No subscription pending cancellation found" st
  | some _ =>
    if o.updateSubOk then
      let subs' := updateFirstWhere st.subs pending
        (fun r => { r with cancelAtPeriodEnd := false })
      .ok { st with subs := subs' }
    else
      .err "stripe subscription update failed" st

/-- switchPlan (payment service lines 307-358): require an active
subscription on a different plan with no pending cancellation, resolve the
new price id, retrieve and update the subscription on Stripe with immediate
proration and a billing-cycle reset, then mirror the new plan and period
locally without granting credits. -/
def switchPlan (o : StripeOracle) (getSettingStr : String → Option String)
    (now : Nat) (uid : String) (newPlan : Plan) (st : PayState) : HResult :=
  match getActiveForUser st.subs uid now with
  | none => .err "No active subscription found" st
  | some sub =>
    if sub.plan = newPlan then .err "Already on this plan" st
    else if sub.cancelAtPeriodEnd then
      .err "Cannot switch plan while subscription is pending cancellation. Reactivate first." st
    else
      let priceKey := match newPlan with
                      | .yearly => "stripe_yearly_price_id"
                      | .monthly => "stripe_monthly_price_id"
      match getSettingStr priceKey with
      | none => .err ("Stripe price ID not configured for the " ++ priceKey ++ " plan.") st
      | some priceId =>
        if priceId = "" then
          .err ("Stripe price ID not configured for the " ++ priceKey ++ " plan.") st
        else
          match sub.stripeSubscriptionId with
          | none => .err "stripe subscription retrieve failed" st
          | some sid =>
            match o.retrieveSub sid with
            | none => .err "stripe subscription retrieve failed" st
            | some _ =>
              match o.updateSubResult sid with
              | none => .err "stripe subscription update failed" st
              | some updated =>
                let (ps, pe) := extractPeriodDates now updated
                let subs' := updateFirstWhere st.subs (activeQueryMatch uid now)
                  (fun r => { r with plan := newPlan,
                                     currentPeriodStart := some ps,
                                     currentPeriodEnd := some pe })
                .ok { st with subs := subs' }

/-- Customer-id resolution shared by the sync paths: a local subscription
record carrying a customer id, else lookup by the user email. -/
def resolveCustomerId (o : StripeOracle) (st : PayState) (uid email : String) :
    Option String :=
  match st.subs.find? (fun r => r.userId == uid && r.stripeCustomerId.isSome) with
  | some r => r.stripeCustomerId
  | none => o.customerByEmail email

/-- syncSubscriptionFromStripe (payment service lines 706-787): resolve the
customer id from a local record or by email lookup (informational no-op
when none exists), list active then trialing subscriptions, and upsert the
first one keyed by (user, subscription id); informational no-op when the
listings are empty. -/
def syncSubscriptionFromStripe (o : StripeOracle) (now : Nat) (uid : String)
    (st : PayState) : HResult :=
  match st.users.find? (fun u => u.id == uid) with
  | none => .err "User not found" st
  | some user =>
    match resolveCustomerId o st uid user.email with
    | none => .ok st
    | some customerId =>
      match o.activeSubs customerId ++ o.trialingSubs customerId with
      | [] => .ok st
      | stripeSub :: _ =>
        let (ps, pe) := extractPeriodDates now stripeSub
        let plan := match stripeSub.interval with
                    | some i => planOfInterval i
                    | none => .monthly
        let subs' := upsertSub st.subs uid stripeSub.id
          (mkSubRecord uid (some customerId) stripeSub.id plan
            stripeSub.status ps pe stripeSub.cancelAtPeriodEnd)
        .ok { st with subs := subs' }

/-- Transaction type and description class of a synced charge: a charge
tied to an invoice is a renewal when the invoice's billing reason is
subscription_cycle and a subscription payment otherwise (also when the
invoice retrieve throws, which the source catches); a charge with no
invoice is a credit purchase. -/
def chargeTxType (o : StripeOracle) (ch : Charge) : String :=
  match ch.invoice with
  | some invId =>
      match o.retrieveInvoice invId with
      | some inv =>
          if inv.billingReason = "subscription_cycle" then "subscription_renewal"
          else "subscription_payment"
      | none => "subscription_payment"
  | none => "credit_purchase"

/-- Import one charge from the Stripe listing: skip non-succeeded charges
and charges already present (matched for this user by payment-intent id or
by the chargeId metadata key - a missing payment intent on both sides
matches, mirroring the undefined-matches-missing query semantics);
otherwise insert a completed transaction whose payment-intent reference
falls back to the charge id. -/
def importCharge (o : StripeOracle) (uid : String) (txs : List Transaction)
    (ch : Charge) : List Transaction :=
  if ch.status ≠ "succeeded" then txs
  else if txs.any (fun t => t.userId == uid &&
         (t.stripePaymentIntentId == ch.paymentIntent ||
          t.metaChargeId == some ch.id)) then txs
  else
    txs ++ [{ userId := uid, stripeSessionId := none,
              stripePaymentIntentId := some (ch.paymentIntent.getD ch.id),
              stripeSubscriptionId := none, stripeInvoiceId := none,
              txType := chargeTxType o ch, status := .completed,
              amountCents := ch.amountCents, currency := ch.currency,
              creditsAdded := ch.metaCreditAmount.getD 0, plan := none,
              description := "Charge synced from Stripe",
              stripeEventType := "charge.synced",
              metaChargeId := some ch.id, metaPaymentIntentId := none }]

/-- Transaction type, detected plan and invoice reference of a synced
payment intent: for invoice-tied intents the type follows the billing
reason, the invoice id is recorded, and the plan is detected from the
invoice's subscription when that retrieve succeeds; a throwing invoice
retrieve (caught in the source) falls back to subscription_payment with no
invoice reference; intents without an invoice are credit purchases. -/
def piTxInfo (o : StripeOracle) (pi : PaymentIntent) :
    String × Option Plan × Option String :=
  match pi.invoice with
  | some invId =>
      match o.retrieveInvoice invId with
      | some inv =>
          let ty := if inv.billingReason = "subscription_cycle" then "subscription_renewal"
                    else "subscription_payment"
          let plan : Option Plan :=
            match inv.subscription with
            | some subId =>
                match o.retrieveSub subId with
                | some s_ =>
                    some (match s_.interval with
                          | some i => planOfInterval i
                          | none => .monthly)
                | none => none
            | none => none
          (ty, plan, some inv.id)
      | none => ("subscription_payment", none, none)
  | none => ("credit_purchase", none, none)

/-- Import one payment intent from the Stripe listing: skip non-succeeded
intents and intents already present (matched for this user by
payment-intent id or the paymentIntentId metadata key); otherwise insert a
completed transaction keyed by the intent id. -/
def importPaymentIntent (o : StripeOracle) (uid : String)
    (txs : List Transaction) (pi : PaymentIntent) : List Transaction :=
  if pi.status ≠ "succeeded" then txs
  else if txs.any (fun t => t.userId == uid &&
         (t.stripePaymentIntentId == some pi.id ||
          t.metaPaymentIntentId == some pi.id)) then txs
  else
    match piTxInfo o pi with
    | (ty, plan, invoiceId) =>
      txs ++ [{ userId := uid, stripeSessionId := none,
                stripePaymentIntentId := some pi.id,
                stripeSubscriptionId := none, stripeInvoiceId := invoiceId,
                txType := ty, status := .completed,
                amountCents := pi.amountCents, currency := pi.currency,
                creditsAdded := pi.metaCreditAmount.getD 0, plan := plan,
                description := "Payment intent synced from Stripe",
                stripeEventType := "payment_intent.synced",
                metaChargeId := none, metaPaymentIntentId := some pi.id }]

/-- syncTransactionsFromStripe (payment service lines 796-974): resolve the
customer id (informational no-op when none exists), fetch the charge and
payment-intent listings - both before any local write, so a throwing
listing call leaves the store untouched - then import the missing charges
followed by the missing payment intents; each import checks the journal as
extended by the imports before it, as the awaited creates do. -/
def syncTransactionsFromStripe (o : StripeOracle) (uid : String)
    (st : PayState) : HResult :=
  match st.users.find? (fun u => u.id == uid) with
  | none => .err "User not found" st
  | some user =>
    match resolveCustomerId o st uid user.email with
    | none => .ok st
    | some customerId =>
      match o.chargesList customerId with
      | none => .err "stripe charges list failed" st
      | some charges =>
        match o.paymentIntentsList customerId with
        | none => .err "stripe payment intents list failed" st
        | some pis =>
          let txs1 := charges.foldl (importCharge o uid) st.txs
          let txs2 := pis.foldl (importPaymentIntent o uid) txs1
          .ok { st with txs := txs2 }

/-- The state component of a handler result: the state as persisted after a
normal return, or after the writes that preceded a throw. -/
def stateOf : HResult → PayState
  | .ok st => st
  | .err _ st => st

/-- Whether a handler result is a thrown error. -/
def isErr : HResult → Bool
  | .ok _ => false
  | .err _ _ => true

/-! ## The check-then-decrement interleaving model

deductCredits performs two separate database operations on the balance: the
read inside checkCredits (findById) and the decrement (findByIdAndUpdate
with an unconditional dollar-inc whose filter is the user id alone).  Each
operation is individually atomic, but nothing links them, so two concurrent
debits for the same user interleave at the granularity below.  A decrement
step fires only when its own earlier read passed the credit check, exactly
as in the source. -/

/-- Shared state of two in-flight debits for one user: the stored balance
and, per request, the balance value its checkCredits read (none before the
read) and whether its decrement has run. -/
structure RaceState where
  credits : Int
  read1 : Option Int
  read2 : Option Int
  done1 : Bool
  done2 : Bool
deriving DecidableEq, Repr

/-- The four atomic database operations of two concurrent debits. -/
inductive RaceStep where
  | check1
  | check2
  | dec1
  | dec2
deriving DecidableEq, Repr

/-- One atomic step: a check reads the current balance; a decrement runs
once, only if its own read satisfied the credit check, and subtracts its
cost unconditionally (the update filter is the user id alone). -/
def raceStep (c1 c2 : Nat) (st : RaceState) : RaceStep → RaceState
  | .check1 => { st with read1 := some st.credits }
  | .check2 => { st with read2 := some st.credits }
  | .dec1 =>
      match st.read1 with
      | some v =>
          if !st.done1 && (c1 : Int) ≤ v then
            { st with credits := st.credits - (c1 : Int), done1 := true }
          else st
      | none => st
  | .dec2 =>
      match st.read2 with
      | some v =>
          if !st.done2 && (c2 : Int) ≤ v then
            { st with credits := st.credits - (c2 : Int), done2 := true }
          else st
      | none => st

/-- Run an interleaving of the two debits from a given shared state. -/
def runRace (c1 c2 : Nat) (steps : List RaceStep) (st : RaceState) : RaceState :=
  steps.foldl (raceStep c1 c2) st

/-! ## Helper lemmas -/

/-- The active-subscription query matches exactly the records of the user
with status active or trialing and a period end strictly after now. -/
theorem activeQueryMatch_iff (uid : String) (now : Nat) (r : SubRecord) :
    activeQueryMatch uid now r = true ↔
      r.userId = uid ∧ (r.status = .active ∨ r.status = .trialing) ∧
        ∃ e, r.currentPeriodEnd = some e ∧ now < e := by
  unfold activeQueryMatch
  cases h : r.currentPeriodEnd with
  | none => simp [h]
  | some e => simp [h, and_assoc]

/-- Canonical form of a successful checkCredits result: the admin literal,
or the non-admin result computed from the configured cost. -/
theorem checkCredits_ok_shape (getSetting : String → Option Nat) (u : CUser)
    (action : String) (c : CheckResult)
    (h : checkCredits getSetting u action = .ok c) :
    (u.role = "admin" ∧ c = ⟨true, 0, none, true⟩) ∨
    (u.role ≠ "admin" ∧ ∃ key, lookup costMap action = some key ∧
      c = ⟨decide ((settingsGet getSetting key 1 : Int) ≤ u.credits),
           settingsGet getSetting key 1, some u.credits, false⟩) := by
  unfold checkCredits at h
  by_cases hrole : u.role = "admin"
  · rw [if_pos hrole] at h
    injection h with h
    exact Or.inl ⟨hrole, h.symm⟩
  · rw [if_neg hrole] at h
    cases hk : lookup costMap action with
    | none => rw [hk] at h; exact absurd h (by simp)
    | some key =>
        rw [hk] at h
        injection h with h
        exact Or.inr ⟨hrole, key, rfl, h.symm⟩

/-- Exhaustive description of a deductCredits call that returns normally:
the admin path (balance untouched, zero-magnitude usage entry with null
snapshot), the insufficient path (state untouched), or the success path
(unconditional decrement by the configured cost, usage entry whose snapshot
is the post-decrement balance). -/
theorem deductCredits_cases (getSetting : String → Option Nat) (uid : String)
    (u : CUser) (action : String) (r : DeductResult) (u' : CUser)
    (h : deductCredits getSetting uid u action = .ok (r, u')) :
    (u.role = "admin" ∧ u'.credits = u.credits ∧ u'.role = u.role ∧
      u'.ledger = u.ledger ++
        [⟨uid, .usage, some action, 0, none, (lookup actionLabels action).getD action⟩]) ∨
    (u' = u) ∨
    (u.role ≠ "admin" ∧ ∃ req : Nat, (req : Int) ≤ u.credits ∧
      u'.credits = u.credits - (req : Int) ∧ u'.role = u.role ∧
      u'.ledger = u.ledger ++
        [⟨uid, .usage, some action, req, some (u.credits - (req : Int)),
          (lookup actionLabels action).getD action⟩]) := by
  unfold deductCredits at h
  cases hc : checkCredits getSetting u action with
  | error e => rw [hc] at h; exact absurd h (by simp)
  | ok c =>
    rw [hc] at h
    rcases checkCredits_ok_shape getSetting u action c hc with ⟨hrole, hcc⟩ | ⟨hrole, key, hk, hcc⟩
    · subst hcc
      simp at h
      obtain ⟨h1', h2'⟩ := h
      subst h2'
      exact Or.inl ⟨hrole, rfl, rfl, rfl⟩
    · subst hcc
      by_cases hle : (settingsGet getSetting key 1 : Int) ≤ u.credits
      · simp [hle] at h
        obtain ⟨h1', h2'⟩ := h
        subst h2'
        exact Or.inr (Or.inr ⟨hrole, settingsGet getSetting key 1, hle, rfl, rfl, rfl⟩)
      · simp [hle] at h
        obtain ⟨h1', h2'⟩ := h
        subst h2'
        exact Or.inr (Or.inl rfl)

/-- Appending one entry adds its signed delta to the ledger sum. -/
theorem signedSum_append (l : List CreditLogEntry) (e : CreditLogEntry) :
    signedSum (l ++ [e]) = signedSum l + signedDelta e := by
  simp [signedSum]

/-- Appending one entry keeps the snapshot check exactly when the appended
snapshot equals the accumulated sum through it. -/
theorem snapshotsOkFrom_append (acc : Int) (l : List CreditLogEntry)
    (e : CreditLogEntry) :
    snapshotsOkFrom acc (l ++ [e]) = true ↔
      (snapshotsOkFrom acc l = true ∧
        e.balanceAfter = some (acc + signedSum l + signedDelta e)) := by
  induction l generalizing acc with
  | nil => simp [snapshotsOkFrom, signedSum]
  | cons x xs ih =>
      simp only [List.cons_append, snapshotsOkFrom, Bool.and_eq_true, beq_iff_eq,
        List.append_eq]
      rw [ih]
      have hsum : acc + signedSum (x :: xs) = (acc + signedDelta x) + signedSum xs := by
        simp only [signedSum, List.map_cons, List.sum_cons]
        ring
      rw [hsum]
      tauto

/-- One ledger operation preserves the balance-equals-sum invariant, the
stored role, and (for non-admin users) the snapshot invariant. -/
theorem applyOp_inv (getSetting : String → Option Nat) (uid : String)
    (u : CUser) (op : LedgerOp)
    (h1 : u.credits = signedSum u.ledger) :
    ((applyOp getSetting uid u op).credits =
        signedSum (applyOp getSetting uid u op).ledger) ∧
    (applyOp getSetting uid u op).role = u.role ∧
    (u.role ≠ "admin" → snapshotsOk u.ledger = true →
      snapshotsOk (applyOp getSetting uid u op).ledger = true) := by
  cases op with
  | purchaseCredit n =>
      refine ⟨?_, rfl, fun _ h2 => ?_⟩
      · show u.credits + (n : Int) = signedSum (u.ledger ++ [_])
        rw [signedSum_append, h1]
        simp [signedDelta]
      · show snapshotsOk (u.ledger ++ [_]) = true
        unfold snapshotsOk at h2 ⊢
        rw [snapshotsOkFrom_append]
        refine ⟨h2, ?_⟩
        simp [signedDelta, h1]
  | subscriptionCredit n =>
      refine ⟨?_, rfl, fun _ h2 => ?_⟩
      · show u.credits + (n : Int) = signedSum (u.ledger ++ [_])
        rw [signedSum_append, h1]
        simp [signedDelta]
      · show snapshotsOk (u.ledger ++ [_]) = true
        unfold snapshotsOk at h2 ⊢
        rw [snapshotsOkFrom_append]
        refine ⟨h2, ?_⟩
        simp [signedDelta, h1]
  | debit action =>
      have hred : applyOp getSetting uid u (.debit action) =
          match deductCredits getSetting uid u action with
          | .ok (_, u') => u'
          | .error _ => u := rfl
      cases hd : deductCredits getSetting uid u action with
      | error e =>
          rw [hred, hd]
          exact ⟨h1, rfl, fun _ h2 => h2⟩
      | ok p =>
        obtain ⟨r, u'⟩ := p
        rw [hred, hd]
        rcases deductCredits_cases getSetting uid u action r u' hd with
          ⟨hrole, hcred, hrold, hled⟩ | heq | ⟨hrole, req, hle, hcred, hrold, hled⟩
        · refine ⟨?_, hrold, fun hna _ => absurd hrole hna⟩
          rw [hcred, hled, signedSum_append, h1]
          simp [signedDelta]
        · subst heq
          exact ⟨h1, rfl, fun _ h2 => h2⟩
        · refine ⟨?_, hrold, fun _ h2 => ?_⟩
          · rw [hcred, hled, signedSum_append, h1]
            simp [signedDelta]
            omega
          · unfold snapshotsOk at h2 ⊢
            rw [hled, snapshotsOkFrom_append]
            refine ⟨h2, ?_⟩
            simp only [signedDelta, Option.some.injEq]
            rw [h1]
            omega

/-- Folding a list of ledger operations preserves the invariants. -/
theorem foldlOps_inv (getSetting : String → Option Nat) (uid : String)
    (ops : List LedgerOp) (u : CUser)
    (h1 : u.credits = signedSum u.ledger)
    (h2 : u.role ≠ "admin" → snapshotsOk u.ledger = true) :
    ((ops.foldl (applyOp getSetting uid) u).credits =
        signedSum (ops.foldl (applyOp getSetting uid) u).ledger) ∧
    (ops.foldl (applyOp getSetting uid) u).role = u.role ∧
    (u.role ≠ "admin" →
      snapshotsOk (ops.foldl (applyOp getSetting uid) u).ledger = true) := by
  induction ops generalizing u with
  | nil => exact ⟨h1, rfl, h2⟩
  | cons op rest ih =>
      simp only [List.foldl_cons]
      obtain ⟨s1, s2, s3⟩ := applyOp_inv getSetting uid u op h1
      obtain ⟨t1, t2, t3⟩ := ih (applyOp getSetting uid u op) s1
        (fun hna => s3 (s2 ▸ hna) (h2 (s2 ▸ hna)))
      exact ⟨t1, by rw [t2, s2], fun hna => t3 (by rw [s2]; exact hna)⟩

/-- A dollar-inc shifts the looked-up balance by the increment. -/
theorem findCredits_incCreditsList (users : List UserRec) (uid : String) (amt : Int) :
    findCredits (incCreditsList users uid amt) uid =
      (findCredits users uid).map (· + amt) := by
  induction users with
  | nil => simp [incCreditsList, findCredits]
  | cons u rest ih =>
      by_cases h : u.id = uid
      · simp [incCreditsList, findCredits, h]
      · simp only [incCreditsList, if_neg h, findCredits, List.find?]
        have hb : (u.id == uid) = false := by simp [h]
        simp only [hb]
        exact ih

/-- A record of the in-place first-match update is an untouched original or
the image of an original under the update. -/
theorem updateFirstWhere_mem (l : List SubRecord) (p : SubRecord → Bool)
    (f : SubRecord → SubRecord) (r' : SubRecord)
    (h : r' ∈ updateFirstWhere l p f) :
    r' ∈ l ∨ ∃ r, r ∈ l ∧ r' = f r := by
  induction l with
  | nil => simp [updateFirstWhere] at h
  | cons x xs ih =>
      unfold updateFirstWhere at h
      by_cases hx : p x = true
      · rw [if_pos hx] at h
        rcases List.mem_cons.mp h with h1 | h1
        · exact Or.inr ⟨x, List.mem_cons_self x xs, h1⟩
        · exact Or.inl (List.mem_cons_of_mem x h1)
      · rw [if_neg hx] at h
        rcases List.mem_cons.mp h with h1 | h1
        · exact Or.inl (h1 ▸ List.mem_cons_self x xs)
        · rcases ih h1 with h2 | ⟨r, hr, hfr⟩
          · exact Or.inl (List.mem_cons_of_mem x h2)
          · exact Or.inr ⟨r, List.mem_cons_of_mem x hr, hfr⟩

/-- A record of an upsert is an untouched original or the upserted record. -/
theorem upsertSub_mem (l : List SubRecord) (uid sid : String) (mk : SubRecord)
    (r' : SubRecord) (h : r' ∈ upsertSub l uid sid mk) :
    r' ∈ l ∨ r' = mk := by
  unfold upsertSub at h
  by_cases hc : (l.any fun r => r.userId == uid && r.stripeSubscriptionId == some sid) = true
  · rw [if_pos hc] at h
    rcases List.mem_map.mp h with ⟨r, hr, hmap⟩
    by_cases hm : (r.userId == uid && r.stripeSubscriptionId == some sid) = true
    · rw [if_pos hm] at hmap
      exact Or.inr hmap.symm
    · rw [if_neg hm] at hmap
      exact Or.inl (hmap ▸ hr)
  · rw [if_neg hc] at h
    rcases List.mem_append.mp h with h1 | h1
    · exact Or.inl h1
    · exact Or.inr (List.mem_singleton.mp h1)

/-! ## Claim theorems -/

/-- A freshly registered user satisfies the ledger invariant. -/
theorem registerUser_inv (uid role : String) (init : Nat) :
    (registerUser uid role init).credits =
      signedSum (registerUser uid role init).ledger ∧
    snapshotsOk (registerUser uid role init).ledger = true := by
  unfold registerUser
  by_cases h : 0 < init
  · simp [h, signedSum, signedDelta, snapshotsOk, snapshotsOkFrom]
  · have h0 : init = 0 := by omega
    simp [h, h0, signedSum, snapshotsOk, snapshotsOkFrom]

/-- C1 (amended): for every user and every sequence of ledger operations
after registration, the stored balance equals the running signed sum of the
ledger (usage negative, addition-typed positive); and for non-admin users
every entry snapshot equals the running sum at the time it was written.
The admin debit path writes a zero-magnitude usage entry with a null
snapshot, so the snapshot conjunct is restricted to non-admin users. -/
theorem c1_ledger_invariant (getSetting : String → Option Nat) (uid role : String)
    (init : Nat) (ops : List LedgerOp) :
    (runOps getSetting uid role init ops).credits =
      signedSum (runOps getSetting uid role init ops).ledger ∧
    (role ≠ "admin" →
      snapshotsOk (runOps getSetting uid role init ops).ledger = true) := by
  obtain ⟨b1, b2⟩ := registerUser_inv uid role init
  obtain ⟨t1, t2, t3⟩ :=
    foldlOps_inv getSetting uid ops (registerUser uid role init) b1 (fun _ => b2)
  exact ⟨t1, fun h => t3 h⟩

/-- C1 witness: a non-admin user registered with 3 credits who performs a
debit of cost 2 and a purchase of 5 keeps balance equal to the ledger sum
with every snapshot matching. -/
theorem c1_witness :
    (runOps (fun _ => some 2) "u1" "user" 3
        [.debit "resume_creation", .purchaseCredit 5]).credits =
      signedSum (runOps (fun _ => some 2) "u1" "user" 3
        [.debit "resume_creation", .purchaseCredit 5]).ledger ∧
    snapshotsOk (runOps (fun _ => some 2) "u1" "user" 3
        [.debit "resume_creation", .purchaseCredit 5]).ledger = true :=
  ⟨(c1_ledger_invariant (fun _ => some 2) "u1" "user" 3
      [.debit "resume_creation", .purchaseCredit 5]).1,
   (c1_ledger_invariant (fun _ => some 2) "u1" "user" 3
      [.debit "resume_creation", .purchaseCredit 5]).2 (by decide)⟩

/-- C1 counterexample: an admin user registered with 3 credits who performs
one debit gets a usage entry with a null snapshot, so the balance still
equals the signed sum but the snapshot condition of the claim fails. -/
theorem c1_counterexample :
    (runOps (fun _ => some 1) "u1" "admin" 3 [.debit "resume_creation"]).credits =
      signedSum (runOps (fun _ => some 1) "u1" "admin" 3 [.debit "resume_creation"]).ledger ∧
    snapshotsOk (runOps (fun _ => some 1) "u1" "admin" 3 [.debit "resume_creation"]).ledger
      = false := by
  decide

/-- The balance of a debit that returns normally stays non-negative when it
started non-negative: the admin and insufficient paths leave it unchanged
and the success path subtracts a cost bounded by the balance just read. -/
theorem deductCredits_ok_nonneg (getSetting : String → Option Nat) (uid : String)
    (u : CUser) (action : String) (r : DeductResult) (u' : CUser)
    (h : deductCredits getSetting uid u action = .ok (r, u'))
    (h0 : 0 ≤ u.credits) : 0 ≤ u'.credits := by
  rcases deductCredits_cases getSetting uid u action r u' h with
    ⟨-, hcred, -, -⟩ | heq | ⟨-, req, hle, hcred, -, -⟩
  · rw [hcred]; exact h0
  · rw [heq]; exact h0
  · rw [hcred]; omega

/-- C2 (amended): deductCredits is a balance read followed by an
unconditional atomic decrement; executed sequentially (each debit completes
before the next starts) the stored balance never becomes negative. -/
theorem c2_sequential_debits_nonneg (getSetting : String → Option Nat)
    (uid : String) (u : CUser) (actions : List String)
    (h0 : 0 ≤ u.credits) :
    0 ≤ (actions.foldl (fun v a => applyOp getSetting uid v (.debit a)) u).credits := by
  induction actions generalizing u with
  | nil => exact h0
  | cons a rest ih =>
      simp only [List.foldl_cons]
      refine ih (applyOp getSetting uid u (.debit a)) ?_
      have hred : applyOp getSetting uid u (.debit a) =
          match deductCredits getSetting uid u a with
          | .ok (_, u') => u'
          | .error _ => u := rfl
      cases hd : deductCredits getSetting uid u a with
      | error e => rw [hred, hd]; exact h0
      | ok p =>
          obtain ⟨r, u'⟩ := p
          rw [hred, hd]
          exact deductCredits_ok_nonneg getSetting uid u a r u' hd h0

/-- C2 witness: a non-admin user with balance 3 running two sequential
debits of cost 3 ends with a non-negative balance. -/
theorem c2_witness :
    0 ≤ (["resume_creation", "resume_creation"].foldl
      (fun v a => applyOp (fun _ => some 3) "u1" v (.debit a)) ⟨3, "user", []⟩).credits :=
  c2_sequential_debits_nonneg (fun _ => some 3) "u1" ⟨3, "user", []⟩
    ["resume_creation", "resume_creation"] (by decide)

/-- C2 counterexample: two concurrent debits of cost 3 against balance 3
both pass the credit check against the same read value, and the schedule
check1 check2 dec1 dec2 drives the stored balance to -3, which is negative -
the decrement is not conditioned on the current balance. -/
theorem c2_counterexample :
    (runRace 3 3 [.check1, .check2, .dec1, .dec2]
        { credits := 3, read1 := none, read2 := none,
          done1 := false, done2 := false }).credits = -3 ∧
    (runRace 3 3 [.check1, .check2, .dec1, .dec2]
        { credits := 3, read1 := none, read2 := none,
          done1 := false, done2 := false }).credits < 0 := by
  decide

/-- C9: isUserSubscribed (and the getActiveForUser query it derives from)
returns true exactly when some subscription record of the user has status
active or trialing and a currentPeriodEnd strictly later than now; in
particular it is false once the period end is past even when the stored
status still reads active. -/
theorem c9_isSubscribed_iff (subs : List SubRecord) (uid : String) (now : Nat) :
    isUserSubscribed subs uid now = true ↔
      ∃ r ∈ subs, r.userId = uid ∧ (r.status = .active ∨ r.status = .trialing) ∧
        ∃ e, r.currentPeriodEnd = some e ∧ now < e := by
  unfold isUserSubscribed getActiveForUser
  rw [List.find?_isSome]
  constructor
  · rintro ⟨r, hmem, hp⟩
    exact ⟨r, hmem, (activeQueryMatch_iff uid now r).1 hp⟩
  · rintro ⟨r, hmem, hp⟩
    exact ⟨r, hmem, (activeQueryMatch_iff uid now r).2 hp⟩

/-- C5: for a non-admin user whose balance is below the configured cost of
a known action, deductCredits mutates neither the balance nor the ledger
and returns the failure descriptor carrying both the required and the
available amounts. -/
theorem c5_insufficient_no_mutation (getSetting : String → Option Nat)
    (uid : String) (u : CUser) (action : String) (key : String) (req : Nat)
    (hrole : u.role ≠ "admin")
    (hkey : lookup costMap action = some key)
    (hreq : settingsGet getSetting key 1 = req)
    (hlt : u.credits < (req : Int)) :
    deductCredits getSetting uid u action =
      .ok ({ success := false, creditsDeducted := 0,
             remaining := some u.credits, required := some req,
             error := some ("Insufficient credits. Required: " ++ toString req ++
               ", Available: " ++ toString u.credits),
             unlimited := false }, u) := by
  have hnle : ¬ ((req : Int) ≤ u.credits) := not_le.mpr hlt
  unfold deductCredits checkCredits
  rw [if_neg hrole, hkey]
  simp [hreq, hnle]

/-- C5 witness: a user with balance 2 attempting an action costing 3 gets
required 3 and available 2 with the balance left at 2. -/
theorem c5_witness :
    deductCredits (fun _ => some 3) "u1" ⟨2, "user", []⟩ "resume_creation" =
      .ok ({ success := false, creditsDeducted := 0,
             remaining := some 2, required := some 3,
             error := some ("Insufficient credits. Required: " ++ toString 3 ++
               ", Available: " ++ toString (2 : Int)),
             unlimited := false }, ⟨2, "user", []⟩) :=
  c5_insufficient_no_mutation (fun _ => some 3) "u1" ⟨2, "user", []⟩
    "resume_creation" "credits_per_resume" 3 (by decide) rfl rfl (by decide)

/-- C10: for an action key missing from the cost map, checkCredits throws
an unknown-action error for a non-admin user, while the admin short-circuit
precedes the action validation: an admin check succeeds for any action key
with required 0, and an admin debit appends a usage ledger entry of
magnitude 0 with a null balance snapshot and no balance change. -/
theorem c10_admin_shortcircuit (getSetting : String → Option Nat) (uid : String)
    (u : CUser) (action : String) :
    (u.role ≠ "admin" → lookup costMap action = none →
       checkCredits getSetting u action = .error ("Unknown credit action: " ++ action)) ∧
    (u.role = "admin" →
       checkCredits getSetting u action =
         .ok { hasCredits := true, required := 0, available := none, unlimited := true } ∧
       deductCredits getSetting uid u action =
         .ok ({ success := true, creditsDeducted := 0, remaining := none,
                required := none, error := none, unlimited := true },
              { u with ledger := u.ledger ++
                  [{ userId := uid, logType := .usage, action := some action,
                     credits := 0, balanceAfter := none,
                     description := (lookup actionLabels action).getD action }] })) := by
  refine ⟨fun h1 h2 => ?_, fun h => ⟨?_, ?_⟩⟩
  · unfold checkCredits
    rw [if_neg h1, h2]
  · unfold checkCredits
    rw [if_pos h]
  · unfold deductCredits checkCredits
    rw [if_pos h]
    simp

/-- C10 witness: the unknown action key bogus_action throws for a non-admin
user and succeeds for an admin, whose debit logs a zero-magnitude usage
entry with a null snapshot. -/
theorem c10_witness :
    checkCredits (fun _ => none) ⟨5, "user", []⟩ "bogus_action" =
      .error ("Unknown credit action: " ++ "bogus_action") ∧
    deductCredits (fun _ => none) "u1" ⟨5, "admin", []⟩ "bogus_action" =
      .ok ({ success := true, creditsDeducted := 0, remaining := none,
             required := none, error := none, unlimited := true },
           { credits := 5, role := "admin",
             ledger := ([] : List CreditLogEntry) ++
               [{ userId := "u1", logType := .usage, action := some "bogus_action",
                  credits := 0, balanceAfter := none,
                  description := (lookup actionLabels "bogus_action").getD "bogus_action" }] }) :=
  ⟨(c10_admin_shortcircuit (fun _ => none) "u1" ⟨5, "user", []⟩ "bogus_action").1
     (by decide) rfl,
   ((c10_admin_shortcircuit (fun _ => none) "u1" ⟨5, "admin", []⟩ "bogus_action").2
     rfl).2⟩

/-- Concrete credit-purchase checkout session granting 10 credits. -/
def c3session : Session :=
  { id := "sess_1", metaType := "credit_purchase", userId := "u1",
    creditAmount := 10, plan := .monthly, amountTotalCents := 999,
    currency := "usd", paymentStatus := "paid", subscriptionId := none,
    paymentIntent := some "pi_1", customer := "cus_1" }

/-- Oracle used by the checkout idempotence scenario. -/
def c3oracle : StripeOracle :=
  { retrieveSub := fun _ => none, retrieveSession := fun _ => some c3session,
    retrieveInvoice := fun _ => none,
    activeSubs := fun _ => [], trialingSubs := fun _ => [],
    chargesList := fun _ => none, paymentIntentsList := fun _ => none,
    customerByEmail := fun _ => none, newCustomerId := "cus_new",
    sessionCreateOk := true, updateSubOk := true,
    updateSubResult := fun _ => none }

/-- Initial state of the checkout idempotence scenario: one user with zero
balance and empty collections. -/
def c3st0 : PayState :=
  { users := [{ id := "u1", email := "u1@example.com", credits := 0 }],
    logs := [], subs := [], txs := [] }

/-- State after the first webhook delivery of sess_1. -/
def c3once : PayState :=
  stateOf (handleCheckoutCompleted c3oracle (fun _ => none) 0 c3session c3st0)

/-- State after a second webhook delivery of the same sess_1. -/
def c3twice : PayState :=
  stateOf (handleCheckoutCompleted c3oracle (fun _ => none) 0 c3session c3once)

/-- C3 counterexample: delivering the same checkout-completed event for
sess_1 (10 credits) twice through the webhook path credits the user 20 and
leaves two completed transactions for that session id - the webhook handler
performs no session-id dedup. -/
theorem c3_counterexample :
    handleCheckoutCompleted c3oracle (fun _ => none) 0 c3session c3st0 = .ok c3once ∧
    handleCheckoutCompleted c3oracle (fun _ => none) 0 c3session c3once = .ok c3twice ∧
    findCredits c3twice.users "u1" = some 20 ∧
    (c3twice.txs.filter
      (fun t => t.stripeSessionId == some "sess_1" && t.status == .completed)).length = 2 := by
  decide

/-- C3 (amended): the session-id dedup lives only on the manual
verification path: once a checkout-completed processing of a purchase or
subscription session has succeeded, verifying the same session id returns
already-processed and leaves the state untouched; the raw webhook path
re-applies the event (see the counterexample). -/
theorem c3_verify_idempotent (o : StripeOracle) (getSetting : String → Option Nat)
    (now : Nat) (s : Session) (st st' : PayState) (uid : String)
    (hmeta : s.metaType = "credit_purchase" ∨ s.metaType = "subscription")
    (h : handleCheckoutCompleted o getSetting now s st = .ok st') :
    verifyAndProcessSession o getSetting now s.id uid st' = .ok true st' := by
  have hdone : st'.txs.any
      (fun t => t.stripeSessionId == some s.id && t.status == .completed) = true := by
    unfold handleCheckoutCompleted at h
    rcases hmeta with hm | hm
    · rw [if_pos hm] at h
      simp [createTransaction, transactionTypeEnum] at h
      subst h
      simp
    · rw [if_neg (by rw [hm]; decide), if_pos hm] at h
      cases hsid : s.subscriptionId with
      | none => simp [hsid] at h
      | some sid =>
        cases hsub : o.retrieveSub sid with
        | none => simp [hsid, hsub] at h
        | some stripeSub =>
          simp [hsid, hsub, createTransaction, transactionTypeEnum] at h
          subst h
          simp
  unfold verifyAndProcessSession
  rw [if_pos hdone]

/-- C3 witness: after the first processing of sess_1, the manual
verification path reports it already processed and changes nothing. -/
theorem c3_witness :
    verifyAndProcessSession c3oracle (fun _ => none) 0 "sess_1" "u1" c3once =
      .ok true c3once :=
  c3_verify_idempotent c3oracle (fun _ => none) 0 c3session c3st0 c3once "u1"
    (Or.inl rfl) (by decide)

/-- Renewal invoice for a subscription that has no local record. -/
def c4inv : Invoice :=
  { id := "in_1", subscription := some "sub_x",
    billingReason := "subscription_cycle", amountPaidCents := 500,
    amountDueCents := 500, currency := "usd", paymentIntent := none }

/-- State with a user but no subscription record for sub_x. -/
def c4st : PayState :=
  { users := [{ id := "u1", email := "u1@example.com", credits := 0 }],
    logs := [], subs := [], txs := [] }

/-- C4 counterexample: a renewal invoice with positive paid amount, no
existing transaction for its id, and a billing reason other than the
initial-subscription one, is still processed as a no-op (no credit grant,
no transaction) because no local subscription record matches the invoice
subscription - a skip case the claim does not allow. -/
theorem c4_counterexample :
    c4inv.billingReason ≠ "subscription_create" ∧
    0 < c4inv.amountPaidCents ∧
    (c4st.txs.any fun t => t.stripeInvoiceId == some c4inv.id) = false ∧
    handleInvoicePaymentSucceeded (fun _ => none) c4inv c4st = .ok c4st := by
  decide

/-- C4 (amended): for a renewal invoice (billing reason subscription_cycle)
with positive paid amount, no pre-existing transaction for its id, and a
matching local subscription record, processing grants the plan allotment
once and writes exactly one transaction keyed by the invoice id; processing
the same invoice again is a no-op, so the same renewal invoice id is never
granted twice.  Without a matching local record, or under any of the skip
conditions, processing is a no-op. -/
theorem c4_renewal_idempotent (getSetting : String → Option Nat) (inv : Invoice)
    (st : PayState) (subId : String) (sub : SubRecord)
    (hsub : inv.subscription = some subId)
    (hreason : inv.billingReason = "subscription_cycle")
    (hamt : 0 < inv.amountPaidCents)
    (hfind : st.subs.find? (fun r => r.stripeSubscriptionId == some subId) = some sub)
    (hnotx : (st.txs.any fun t => t.stripeInvoiceId == some inv.id) = false) :
    ∃ st', handleInvoicePaymentSucceeded getSetting inv st = .ok st' ∧
      findCredits st'.users sub.userId =
        (findCredits st.users sub.userId).map
          (· + (creditLimitForPlan getSetting sub.plan : Int)) ∧
      (st'.txs.filter fun t => t.stripeInvoiceId == some inv.id).length =
        (st.txs.filter fun t => t.stripeInvoiceId == some inv.id).length + 1 ∧
      handleInvoicePaymentSucceeded getSetting inv st' = .ok st' := by
  have hskip : ¬ (inv.billingReason = "subscription_create") := by
    rw [hreason]; decide
  have hswitch : ¬ (inv.billingReason = "subscription_update") := by
    rw [hreason]; decide
  have hle : ¬ (inv.amountPaidCents ≤ 0) := by omega
  unfold handleInvoicePaymentSucceeded
  simp only [hsub]
  rw [if_neg hskip, if_neg hle]
  simp only [hfind]
  rw [if_neg (by simp [hnotx])]
  simp only [hswitch, reduceIte, createTransaction, transactionTypeEnum]
  rw [if_pos (by decide)]
  refine ⟨_, rfl, ?_, ?_, ?_⟩
  · exact findCredits_incCreditsList st.users sub.userId _
  · simp
  · rw [if_neg hskip, if_neg hle]
    simp only [hfind]
    rw [if_pos (by simp)]

/-- Renewal invoice of the C4 witness scenario. -/
def c4winv : Invoice :=
  { id := "in_2", subscription := some "sub_1",
    billingReason := "subscription_cycle", amountPaidCents := 799,
    amountDueCents := 799, currency := "usd", paymentIntent := none }

/-- Local monthly subscription record of the C4 witness scenario. -/
def c4wsub : SubRecord :=
  { userId := "u1", stripeCustomerId := some "cus_1",
    stripeSubscriptionId := some "sub_1", plan := .monthly, status := .active,
    currentPeriodStart := some 0, currentPeriodEnd := some 1000,
    cancelAtPeriodEnd := false, publicResumes := true, resumeAnalytics := true,
    salaryEstimation := true }

/-- Starting state of the C4 witness scenario. -/
def c4wst : PayState :=
  { users := [{ id := "u1", email := "u1@example.com", credits := 5 }],
    logs := [], subs := [c4wsub], txs := [] }

/-- C4 witness: a concrete renewal invoice against a monthly subscription
grants 50 credits exactly once, with re-processing a no-op. -/
theorem c4_witness :
    ∃ st', handleInvoicePaymentSucceeded (fun _ => none) c4winv c4wst = .ok st' ∧
      findCredits st'.users c4wsub.userId =
        (findCredits c4wst.users c4wsub.userId).map
          (· + (creditLimitForPlan (fun _ => none) c4wsub.plan : Int)) ∧
      (st'.txs.filter fun t => t.stripeInvoiceId == some c4winv.id).length =
        (c4wst.txs.filter fun t => t.stripeInvoiceId == some c4winv.id).length + 1 ∧
      handleInvoicePaymentSucceeded (fun _ => none) c4winv st' = .ok st' :=
  c4_renewal_idempotent (fun _ => none) c4winv c4wst "sub_1" c4wsub
    rfl rfl (by decide) (by decide) (by decide)

/-- Local monthly subscription record of the C6 plan-switch scenario. -/
def c6sub : SubRecord :=
  { userId := "u1", stripeCustomerId := some "cus_1",
    stripeSubscriptionId := some "sub_1", plan := .monthly, status := .active,
    currentPeriodStart := some 0, currentPeriodEnd := some 1000,
    cancelAtPeriodEnd := false, publicResumes := true, resumeAnalytics := true,
    salaryEstimation := true }

/-- State of the C6 plan-switch scenario. -/
def c6st : PayState :=
  { users := [{ id := "u1", email := "u1@example.com", credits := 0 }],
    logs := [], subs := [c6sub], txs := [] }

/-- Plan-switch invoice (billing reason subscription_update) with a
positive paid amount and a fresh invoice id. -/
def c6inv : Invoice :=
  { id := "in_sw", subscription := some "sub_1",
    billingReason := "subscription_update", amountPaidCents := 2500,
    amountDueCents := 2500, currency := "usd", paymentIntent := none }

/-- C6: the transaction schema type enum omits subscription_switch, yet the
invoice handler writes that type for plan-switch invoices; at the concrete
switch invoice the transaction insert is rejected by schema validation
after the credits were already granted and the credit-log entry written, so
the handler throws with no transaction persisted - the idempotency key for
the invoice is never recorded. -/
theorem c6_switch_transaction_rejected :
    transactionTypeEnum.contains "subscription_switch" = false ∧
    isErr (handleInvoicePaymentSucceeded (fun _ => none) c6inv c6st) = true ∧
    (stateOf (handleInvoicePaymentSucceeded (fun _ => none) c6inv c6st)).txs = [] ∧
    findCredits (stateOf (handleInvoicePaymentSucceeded (fun _ => none) c6inv c6st)).users
      "u1" = some 50 ∧
    (stateOf (handleInvoicePaymentSucceeded (fun _ => none) c6inv c6st)).logs.length = 1 := by
  decide

/-- Expired local record of the C7 scenario. -/
def c7sub : SubRecord :=
  { userId := "u1", stripeCustomerId := some "cus_1",
    stripeSubscriptionId := some "sub_1", plan := .monthly, status := .expired,
    currentPeriodStart := some 0, currentPeriodEnd := some 50,
    cancelAtPeriodEnd := false, publicResumes := true, resumeAnalytics := true,
    salaryEstimation := true }

/-- State of the C7 scenario: one expired subscription record. -/
def c7st : PayState :=
  { users := [{ id := "u1", email := "u1@example.com", credits := 0 }],
    logs := [], subs := [c7sub], txs := [] }

/-- A subscription-updated event reporting the subscription active. -/
def c7ev : StripeSub :=
  { id := "sub_1", status := .active, periodStart := some 2000,
    periodEnd := some 3000, cancelAtPeriodEnd := false,
    interval := some "month" }

/-- C7 counterexample: a subscription-updated event alone (no new checkout)
moves an expired local record back to active, because the handler mirrors
whatever status the event carries. -/
theorem c7_counterexample :
    (c7st.subs.map (·.status)) = [.expired] ∧
    handleSubscriptionUpdated 100 c7ev c7st =
      .ok (stateOf (handleSubscriptionUpdated 100 c7ev c7st)) ∧
    ((stateOf (handleSubscriptionUpdated 100 c7ev c7st)).subs.map (·.status)) =
      [.active] := by
  decide

/-- C7 (amended): the handlers mirror the processor-reported status: every
record after a subscription-updated event is untouched or carries exactly
the status of the event; every record after a subscription-deleted event is
untouched or expired; every record after a subscription sync is untouched
or carries the status of a subscription listed by the processor.  Hence an
expired record moves back to active exactly when the processor reports the
subscription active (by event, sync, or new checkout), not only via a new
checkout. -/
theorem c7_status_mirrors_processor (now : Nat) (ev : StripeSub) (st : PayState)
    (o : StripeOracle) (uid : String) :
    (∀ r' ∈ (stateOf (handleSubscriptionUpdated now ev st)).subs,
       r' ∈ st.subs ∨ r'.status = ev.status) ∧
    (∀ r' ∈ (stateOf (handleSubscriptionDeleted ev st)).subs,
       r' ∈ st.subs ∨ r'.status = .expired) ∧
    (∀ r' ∈ (stateOf (syncSubscriptionFromStripe o now uid st)).subs,
       r' ∈ st.subs ∨
         ∃ c ssub, ssub ∈ o.activeSubs c ++ o.trialingSubs c ∧
           r'.status = ssub.status) := by
  refine ⟨?_, ?_, ?_⟩
  · intro r' hr'
    unfold handleSubscriptionUpdated at hr'
    by_cases hc : (st.subs.any fun r => r.stripeSubscriptionId == some ev.id) = true
    · rw [if_pos hc] at hr'
      simp only [stateOf] at hr'
      unfold updateFirstSub at hr'
      rcases updateFirstWhere_mem _ _ _ _ hr' with h | ⟨r, hr, hfr⟩
      · exact Or.inl h
      · exact Or.inr (by subst hfr; rfl)
    · rw [if_neg hc] at hr'
      simp only [stateOf] at hr'
      exact Or.inl hr'
  · intro r' hr'
    unfold handleSubscriptionDeleted at hr'
    by_cases hc : (st.subs.any fun r => r.stripeSubscriptionId == some ev.id) = true
    · rw [if_pos hc] at hr'
      simp only [stateOf] at hr'
      unfold updateFirstSub at hr'
      rcases updateFirstWhere_mem _ _ _ _ hr' with h | ⟨r, hr, hfr⟩
      · exact Or.inl h
      · exact Or.inr (by subst hfr; rfl)
    · rw [if_neg hc] at hr'
      simp only [stateOf] at hr'
      exact Or.inl hr'
  · intro r' hr'
    unfold syncSubscriptionFromStripe at hr'
    cases hu : st.users.find? (fun u => u.id == uid) with
    | none =>
        simp only [hu, stateOf] at hr'
        exact Or.inl hr'
    | some user =>
      cases hcid : resolveCustomerId o st uid user.email with
      | none =>
          simp only [hu, hcid, stateOf] at hr'
          exact Or.inl hr'
      | some c =>
        cases hlist : o.activeSubs c ++ o.trialingSubs c with
        | nil =>
            simp only [hu, hcid, hlist, stateOf] at hr'
            exact Or.inl hr'
        | cons shead rest =>
            simp only [hu, hcid, hlist, stateOf] at hr'
            rcases upsertSub_mem _ _ _ _ _ hr' with h | h
            · exact Or.inl h
            · refine Or.inr ⟨c, shead, ?_, by subst h; rfl⟩
              rw [hlist]
              exact List.mem_cons_self shead rest

/-- The record the C7 witness inspects: the expired record as rewritten by
the active-status event. -/
def c7updated : SubRecord :=
  { c7sub with status := .active, currentPeriodStart := some 2000,
               currentPeriodEnd := some 3000, cancelAtPeriodEnd := false,
               plan := .monthly }

/-- Oracle of the C7 witness (unused by the exercised component). -/
def c7oracle : StripeOracle :=
  { retrieveSub := fun _ => none, retrieveSession := fun _ => none,
    retrieveInvoice := fun _ => none,
    activeSubs := fun _ => [], trialingSubs := fun _ => [],
    chargesList := fun _ => none, paymentIntentsList := fun _ => none,
    customerByEmail := fun _ => none, newCustomerId := "cus_new",
    sessionCreateOk := true, updateSubOk := true,
    updateSubResult := fun _ => none }

/-- C7 witness: the record produced by the active-status updated event is
either an original record or carries the event status. -/
theorem c7_witness :
    c7updated ∈ c7st.subs ∨ c7updated.status = c7ev.status :=
  (c7_status_mirrors_processor 100 c7ev c7st c7oracle "u1").1 c7updated (by decide)

/-- A checkout-completed processing that throws persists nothing: both
transaction types it writes pass the schema enum, so the only throw sites
precede every local write. -/
theorem handleCheckoutCompleted_err (o : StripeOracle)
    (getSetting : String → Option Nat) (now : Nat) (s : Session)
    (st : PayState) (msg : String) (st' : PayState)
    (h : handleCheckoutCompleted o getSetting now s st = .err msg st') :
    st' = st := by
  unfold handleCheckoutCompleted at h
  by_cases hm1 : s.metaType = "credit_purchase"
  · rw [if_pos hm1] at h
    simp [createTransaction, transactionTypeEnum] at h
  · rw [if_neg hm1] at h
    by_cases hm2 : s.metaType = "subscription"
    · rw [if_pos hm2] at h
      cases hsid : s.subscriptionId with
      | none =>
          simp only [hsid] at h
          injection h with h1 h2
          exact h2.symm
      | some sid =>
        cases hsub : o.retrieveSub sid with
        | none =>
            simp only [hsid, hsub] at h
            injection h with h1 h2
            exact h2.symm
        | some stripeSub =>
            simp [hsid, hsub, createTransaction, transactionTypeEnum] at h
    · rw [if_neg hm2] at h
      exact absurd h (by simp)

/-- C8 (amended): every Reconciliation Service operation - credit and
subscription checkout creation, cancel, reactivate, switch plan, verify
session, subscription sync and transaction sync - that surfaces an error
leaves the local state exactly as it was, with one exception: the
subscription-checkout conflict path, which first syncs the remote active
subscription into the local subscription store and then surfaces the
already-subscribed error - and even it touches no balance, ledger, or
transaction state. -/
theorem c8_fail_closed (o : StripeOracle) (getSetting : String → Option Nat)
    (getSettingStr : String → Option String) (now : Nat) (uid : String)
    (plan : Plan) (sessionId : String) (st : PayState) :
    (∀ msg st', createCreditCheckoutSession o uid st = .err msg st' → st' = st) ∧
    (∀ msg st', cancelSubscription o now uid st = .err msg st' → st' = st) ∧
    (∀ msg st', reactivateSubscription o uid st = .err msg st' → st' = st) ∧
    (∀ msg st', switchPlan o getSettingStr now uid plan st = .err msg st' → st' = st) ∧
    (∀ msg st', syncSubscriptionFromStripe o now uid st = .err msg st' → st' = st) ∧
    (∀ msg st', syncTransactionsFromStripe o uid st = .err msg st' → st' = st) ∧
    (∀ msg st', verifyAndProcessSession o getSetting now sessionId uid st = .err msg st' →
       st' = st) ∧
    (∀ msg st', createSubscriptionCheckoutSession o getSettingStr now uid plan st =
        .err msg st' →
       st'.users = st.users ∧ st'.logs = st.logs ∧ st'.txs = st.txs ∧
       (msg = syncedConflictMsg ∨ st' = st)) := by
  refine ⟨?_, ?_, ?_, ?_, ?_, ?_, ?_, ?_⟩ <;> intro msg st' h
  · unfold createCreditCheckoutSession at h
    repeat' split at h
    all_goals first
      | (injection h with h1 h2; exact h2.symm)
      | exact absurd h (by simp)
  · unfold cancelSubscription at h
    repeat' split at h
    all_goals first
      | (injection h with h1 h2; exact h2.symm)
      | exact absurd h (by simp)
  · unfold reactivateSubscription at h
    (try simp only [] at h)
    repeat' split at h
    all_goals first
      | (injection h with h1 h2; exact h2.symm)
      | exact absurd h (by simp)
  · unfold switchPlan at h
    (try simp only [] at h)
    repeat' split at h
    all_goals first
      | (injection h with h1 h2; exact h2.symm)
      | exact absurd h (by simp)
  · unfold syncSubscriptionFromStripe at h
    repeat' split at h
    all_goals first
      | (injection h with h1 h2; exact h2.symm)
      | exact absurd h (by simp)
  · unfold syncTransactionsFromStripe at h
    (try simp only [] at h)
    repeat' split at h
    all_goals first
      | (injection h; done)
      | (injection h with h1 h2; exact h2.symm)
  · unfold verifyAndProcessSession at h
    split at h
    · exact absurd h (by simp)
    · split at h
      · injection h with h1 h2
        exact h2.symm
      · split at h
        · injection h with h1 h2
          exact h2.symm
        · split at h
          · injection h with h1 h2
            exact h2.symm
          · split at h
            · exact absurd h (by simp)
            · rename_i e st2 heq
              injection h with h1 h2
              rw [← h2]
              exact handleCheckoutCompleted_err o getSetting now _ st e st2 heq
  · unfold createSubscriptionCheckoutSession at h
    (try simp only [] at h)
    repeat' split at h
    all_goals first
      | (injection h; done)
      | (injection h with h1 h2;
         first
           | exact ⟨by rw [← h2], by rw [← h2], by rw [← h2], Or.inr h2.symm⟩
           | exact ⟨by rw [← h2], by rw [← h2], by rw [← h2], Or.inl h1.symm⟩)

/-- Expired local record of the C8 conflict scenario, carrying the Stripe
customer id. -/
def c8sub : SubRecord :=
  { userId := "u1", stripeCustomerId := some "cus_1",
    stripeSubscriptionId := some "sub_old", plan := .monthly,
    status := .expired, currentPeriodStart := some 0,
    currentPeriodEnd := some 10, cancelAtPeriodEnd := false,
    publicResumes := true, resumeAnalytics := true, salaryEstimation := true }

/-- State of the C8 conflict scenario: no locally active subscription. -/
def c8st : PayState :=
  { users := [{ id := "u1", email := "u1@example.com", credits := 0 }],
    logs := [], subs := [c8sub], txs := [] }

/-- The active subscription Stripe still reports for the customer. -/
def c8stripeSub : StripeSub :=
  { id := "sub_old", status := .active, periodStart := some 100,
    periodEnd := some 200, cancelAtPeriodEnd := false,
    interval := some "month" }

/-- Oracle of the C8 conflict scenario. -/
def c8oracle : StripeOracle :=
  { retrieveSub := fun _ => none, retrieveSession := fun _ => none,
    retrieveInvoice := fun _ => none,
    activeSubs := fun _ => [c8stripeSub], trialingSubs := fun _ => [],
    chargesList := fun _ => none, paymentIntentsList := fun _ => none,
    customerByEmail := fun _ => none, newCustomerId := "cus_new",
    sessionCreateOk := true, updateSubOk := true,
    updateSubResult := fun _ => none }

/-- C8 counterexample: when Stripe reports an active subscription missing
locally, createSubscriptionCheckoutSession upserts that subscription into
the local store and then surfaces the already-subscribed error - an error
return with a persisted local mutation. -/
theorem c8_counterexample :
    createSubscriptionCheckoutSession c8oracle (fun _ => some "price_1") 100
        "u1" .monthly c8st =
      .err syncedConflictMsg
        (stateOf (createSubscriptionCheckoutSession c8oracle
          (fun _ => some "price_1") 100 "u1" .monthly c8st)) ∧
    (stateOf (createSubscriptionCheckoutSession c8oracle
        (fun _ => some "price_1") 100 "u1" .monthly c8st)).subs ≠ c8st.subs := by
  decide

/-- C8 witness: cancelling with no active subscription surfaces an error
and leaves the (empty) state unchanged. -/
theorem c8_witness :
    ({ users := [], logs := [], subs := [], txs := [] } : PayState) =
      { users := [], logs := [], subs := [], txs := [] } :=
  (c8_fail_closed c8oracle (fun _ => none) (fun _ => none) 0 "u1" .monthly "sess_x"
      { users := [], logs := [], subs := [], txs := [] }).2.1
    "No active subscription found"
    { users := [], logs := [], subs := [], txs := [] } (by decide)

end TekvionBilling
